import Mathlib

/-!
Shallow embedding of the json-poller crate (src/lib.rs): a generic periodic
JSON poller consisting of a configuration builder with defaults, an HTTP
client configured at build time, a single-shot fetch-and-decode operation,
and a perpetual polling loop driven by a tokio interval timer with
missed-tick skipping.

The HTTP transport and the JSON parser are external collaborators of the
crate; they enter the model as oracle functions (the transport as a function
from client and url to a response or transport error, the decoder as a
function from a body to a value or decode error).  Wall-clock instants and
durations are modelled as natural numbers of nanoseconds.
-/

/-- Durations (std::time::Duration) are modelled as a count of nanoseconds. -/
abbrev Duration := Nat

/-- Duration::from_millis. -/
def Duration.from_millis (ms : Nat) : Duration := ms * 1000000

/-- Duration::from_secs. -/
def Duration.from_secs (s : Nat) : Duration := s * 1000000000

/-- lib.rs line 9. -/
def POLL_INTERVAL_MS : Nat := 500

/-- lib.rs line 10. -/
def POOL_MAX_IDLE_PER_HOST : Nat := 1

/-- lib.rs line 11. -/
def POOL_IDLE_TIMEOUT_SECS : Nat := 90

/-- lib.rs line 12. -/
def REQUEST_TIMEOUT_MS : Nat := 1000

/-- lib.rs line 13. -/
def TCP_KEEPALIVE_SECS : Nat := 60

/-- The reqwest Client as configured by JsonPollerBuilder::build
(lib.rs lines 71-76).  The transport internals are an external collaborator;
the model keeps exactly the settings the crate hands to Client::builder. -/
structure Client where
  pool_max_idle_per_host : Nat
  pool_idle_timeout : Duration
  timeout : Duration
  tcp_keepalive : Duration
deriving Repr, DecidableEq

/-- JsonPoller (lib.rs lines 15-20).  The phantom type parameter T of the
Rust struct carries no data; in the model the payload type appears only at
the fetch operation, via the decoder oracle. -/
structure JsonPoller where
  client : Client
  url : String
  poll_interval : Duration
deriving Repr, DecidableEq

/-- JsonPollerBuilder (lib.rs lines 22-30). -/
structure JsonPollerBuilder where
  url : String
  poll_interval_ms : Nat
  pool_max_idle_per_host : Nat
  pool_idle_timeout_secs : Nat
  request_timeout_ms : Nat
  tcp_keepalive_secs : Nat
deriving Repr, DecidableEq

/-- JsonPollerBuilder::new (lib.rs lines 33-43). -/
def JsonPollerBuilder.new (url : String) : JsonPollerBuilder where
  url := url
  poll_interval_ms := POLL_INTERVAL_MS
  pool_max_idle_per_host := POOL_MAX_IDLE_PER_HOST
  pool_idle_timeout_secs := POOL_IDLE_TIMEOUT_SECS
  request_timeout_ms := REQUEST_TIMEOUT_MS
  tcp_keepalive_secs := TCP_KEEPALIVE_SECS

/-- JsonPollerBuilder::poll_interval_ms (lib.rs lines 45-48).  The Rust
setter shares its name with the field it sets; the model prefixes the
setters with set to avoid the clash with the field projection. -/
def JsonPollerBuilder.set_poll_interval_ms (b : JsonPollerBuilder) (ms : Nat) :
    JsonPollerBuilder :=
  { b with poll_interval_ms := ms }

/-- JsonPollerBuilder::pool_max_idle_per_host (lib.rs lines 50-53). -/
def JsonPollerBuilder.set_pool_max_idle_per_host (b : JsonPollerBuilder) (max : Nat) :
    JsonPollerBuilder :=
  { b with pool_max_idle_per_host := max }

/-- JsonPollerBuilder::pool_idle_timeout_secs (lib.rs lines 55-58). -/
def JsonPollerBuilder.set_pool_idle_timeout_secs (b : JsonPollerBuilder) (secs : Nat) :
    JsonPollerBuilder :=
  { b with pool_idle_timeout_secs := secs }

/-- JsonPollerBuilder::request_timeout_ms (lib.rs lines 60-63). -/
def JsonPollerBuilder.set_request_timeout_ms (b : JsonPollerBuilder) (ms : Nat) :
    JsonPollerBuilder :=
  { b with request_timeout_ms := ms }

/-- JsonPollerBuilder::tcp_keepalive_secs (lib.rs lines 65-68). -/
def JsonPollerBuilder.set_tcp_keepalive_secs (b : JsonPollerBuilder) (secs : Nat) :
    JsonPollerBuilder :=
  { b with tcp_keepalive_secs := secs }

/-- JsonPollerBuilder::build (lib.rs lines 70-84).  The Rust function
returns Result because reqwest Client construction can fail inside the
external transport stack (e.g. TLS backend initialisation); no input of
this crate triggers that failure, so the model keeps the success path:
the client record receives exactly the accumulated pool, timeout and
keepalive settings, and the poller copies the url and the poll interval. -/
def JsonPollerBuilder.build (b : JsonPollerBuilder) : JsonPoller where
  client :=
    { pool_max_idle_per_host := b.pool_max_idle_per_host
      pool_idle_timeout := Duration.from_secs b.pool_idle_timeout_secs
      timeout := Duration.from_millis b.request_timeout_ms
      tcp_keepalive := Duration.from_secs b.tcp_keepalive_secs }
  url := b.url
  poll_interval := Duration.from_millis b.poll_interval_ms

/-- JsonPoller::builder (lib.rs lines 91-93). -/
def JsonPoller.builder (url : String) : JsonPollerBuilder :=
  JsonPollerBuilder.new url

/-- A subset of the five override operations applied in sequence to a
builder: a some value means the corresponding setter is called with that
value, a none means it is not called. -/
def applyOverrides (b : JsonPollerBuilder)
    (pi pmi pit rt tk : Option Nat) : JsonPollerBuilder :=
  let b1 := match pi with
    | some v => b.set_poll_interval_ms v
    | none => b
  let b2 := match pmi with
    | some v => b1.set_pool_max_idle_per_host v
    | none => b1
  let b3 := match pit with
    | some v => b2.set_pool_idle_timeout_secs v
    | none => b2
  let b4 := match rt with
    | some v => b3.set_request_timeout_ms v
    | none => b3
  match tk with
    | some v => b4.set_tcp_keepalive_secs v
    | none => b4

/-- A transport-level failure of reqwest (DNS, connection refused, timeout,
TLS): the request was sent but no response was obtained.  Opaque to the
crate beyond its message. -/
structure TransportError where
  msg : String
deriving Repr, DecidableEq

/-- A failure of response.json, covering both invalid JSON and a structure
that does not match the payload type.  Opaque to the crate beyond its
message. -/
structure DecodeError where
  msg : String
deriving Repr, DecidableEq

/-- An HTTP response as seen by fetch: a status code and a body. -/
structure HttpResponse where
  status : Nat
  body : String
deriving Repr, DecidableEq

/-- The fetch error (boxed dyn Error in the source, lib.rs lines 118-136):
a transport error passed through, the string built from the status code
(format HTTP status, line 127), or a decode error passed through. -/
inductive FetchError where
  | transport (e : TransportError)
  | httpStatus (status : Nat)
  | decode (e : DecodeError)
deriving Repr, DecidableEq

/-- StatusCode::is_success of the http crate: the 2xx range. -/
def is_success (status : Nat) : Bool :=
  decide (200 ≤ status ∧ status < 300)

/-- JsonPoller::fetch (lib.rs lines 118-136).  The transport is the oracle
send (the outcome of client.get(url).send()), the decoder is the oracle dec
(the outcome of response.json on a given body). -/
def JsonPoller.fetch {T : Type} (p : JsonPoller)
    (send : Client → String → Except TransportError HttpResponse)
    (dec : String → Except DecodeError T) : Except FetchError T :=
  match send p.client p.url with
  | .error e => .error (.transport e)
  | .ok response =>
    if !(is_success response.status) then
      .error (.httpStatus response.status)
    else
      match dec response.body with
      | .error e => .error (.decode e)
      | .ok data => .ok data

/-- JsonPoller::fetch_once (lib.rs lines 138-141): delegates to fetch. -/
def JsonPoller.fetch_once {T : Type} (p : JsonPoller)
    (send : Client → String → Except TransportError HttpResponse)
    (dec : String → Except DecodeError T) : Except FetchError T :=
  p.fetch send dec

/-- The observable effect of one iteration of the polling loop: either the
handler was invoked with the decoded data and the measured elapsed duration,
or the fetch error was logged (lib.rs lines 106-114). -/
inductive LoopEvent (T : Type) where
  | handlerCall (data : T) (elapsed : Duration)
  | logError (e : FetchError)
deriving Repr, DecidableEq

/-- The body of one iteration of the loop in JsonPoller::start (lib.rs
lines 105-114): on a successful fetch the handler is called with the data
and the elapsed duration, on a failed fetch the error is logged and the
handler is not called. -/
def startStep {T : Type} (outcome : Except FetchError T) (elapsed : Duration) :
    LoopEvent T :=
  match outcome with
  | .ok data => .handlerCall data elapsed
  | .error e => .logError e

/-- The event trace of the first n iterations of the loop in
JsonPoller::start (lib.rs lines 103-115).  The transport oracle takes the
tick index as an extra argument so that the server may answer differently
on different ticks; elapsed gives the measured round-trip duration of each
tick.  Every iteration appends exactly one event and the recursion is
total: no outcome, in particular no fetch error, ends the loop. -/
def JsonPoller.startEvents {T : Type} (p : JsonPoller)
    (send : Nat → Client → String → Except TransportError HttpResponse)
    (dec : String → Except DecodeError T) (elapsed : Nat → Duration) :
    Nat → List (LoopEvent T)
  | 0 => []
  | n + 1 =>
    p.startEvents send dec elapsed n
      ++ [startStep (p.fetch (send n) dec) (elapsed n)]

/-- A panic of the Rust runtime, as triggered by tokio::time::interval on a
zero period. -/
inductive Panic where
  | intervalPeriodZero
deriving Repr, DecidableEq

/-- The state of a tokio interval timer: its period and the deadline of the
next tick, both in nanoseconds. -/
structure IntervalTimer where
  period : Nat
  deadline : Nat
deriving Repr, DecidableEq

/-- One tick().await of a tokio interval timer whose missed-tick behavior
is MissedTickBehavior::Skip, as set by JsonPoller::start (lib.rs line 101).
Modelled from tokio's documented contract: called at instant now, the tick
completes at the deadline if now has not passed it (and the next deadline
advances by one period); a late call completes immediately at now, and Skip
schedules the next deadline at the next multiple of the period after now on
the grid of the original schedule, skipping the missed ticks instead of
firing them in a burst. -/
def IntervalTimer.tick (t : IntervalTimer) (now : Nat) : Nat × IntervalTimer :=
  if now ≤ t.deadline then
    (t.deadline, ⟨t.period, t.deadline + t.period⟩)
  else
    (now, ⟨t.period, now + t.period - ((now - t.deadline) % t.period)⟩)

/-- tokio::time::interval (lib.rs line 100).  Modelled from tokio's
documented contract: panics if the period is zero; otherwise the first tick
completes immediately, i.e. the initial deadline is the instant of
creation. -/
def tokioInterval (period : Duration) (now : Nat) : Except Panic IntervalTimer :=
  if period = 0 then .error .intervalPeriodZero else .ok ⟨period, now⟩

/-- The timer initialisation performed by JsonPoller::start (lib.rs lines
100-101): a tokio interval with the configured poll interval as period. -/
def JsonPoller.start_timer (p : JsonPoller) (now : Nat) :
    Except Panic IntervalTimer :=
  tokioInterval p.poll_interval now

/-- The fire instants of the loop in JsonPoller::start (lib.rs lines
103-115), given the period, the creation instant t0 of the timer, and the
duration d n that iteration n spends in fetch-and-dispatch (fetch plus
handler).  Entry n is the instant at which tick n completes (and the fetch
of iteration n starts), paired with the timer state after that tick;
iteration n+1 calls tick again once the processing of iteration n is done,
at instant fire n + d n. -/
def startTimes (period t0 : Nat) (d : Nat → Nat) : Nat → Nat × IntervalTimer
  | 0 => IntervalTimer.tick ⟨period, t0⟩ t0
  | n + 1 => (startTimes period t0 d n).2.tick ((startTimes period t0 d n).1 + d n)

/-- C3: for every URL, a builder constructed with that URL and no override
calls builds a Poller whose poll interval is 500 ms and whose url is the
supplied one, with the client configured with pool max idle per host 1,
pool idle timeout 90 s, request timeout 1000 ms and TCP keepalive 60 s. -/
theorem build_defaults (url : String) :
    (JsonPollerBuilder.new url).build =
      { client :=
          { pool_max_idle_per_host := 1
            pool_idle_timeout := Duration.from_secs 90
            timeout := Duration.from_millis 1000
            tcp_keepalive := Duration.from_secs 60 }
        url := url
        poll_interval := Duration.from_millis 500 } := rfl

/-- C4: for every subset of the five override operations applied with any
numeric values, the built Poller reflects exactly the overridden values and
the documented defaults for every field not overridden. -/
theorem build_overrides (url : String) (pi pmi pit rt tk : Option Nat) :
    (applyOverrides (JsonPollerBuilder.new url) pi pmi pit rt tk).build =
      { client :=
          { pool_max_idle_per_host := pmi.getD POOL_MAX_IDLE_PER_HOST
            pool_idle_timeout := Duration.from_secs (pit.getD POOL_IDLE_TIMEOUT_SECS)
            timeout := Duration.from_millis (rt.getD REQUEST_TIMEOUT_MS)
            tcp_keepalive := Duration.from_secs (tk.getD TCP_KEEPALIVE_SECS) }
        url := url
        poll_interval := Duration.from_millis (pi.getD POLL_INTERVAL_MS) } := by
  cases pi <;> cases pmi <;> cases pit <;> cases rt <;> cases tk <;> rfl

/-- C10: each override operation changes only its own field of the builder
(the url and every other field are unchanged), and any two override
operations on distinct fields commute. -/
theorem setter_frame_commute (b : JsonPollerBuilder) (v w : Nat) :
    b.set_poll_interval_ms v = { b with poll_interval_ms := v } ∧
    b.set_pool_max_idle_per_host v = { b with pool_max_idle_per_host := v } ∧
    b.set_pool_idle_timeout_secs v = { b with pool_idle_timeout_secs := v } ∧
    b.set_request_timeout_ms v = { b with request_timeout_ms := v } ∧
    b.set_tcp_keepalive_secs v = { b with tcp_keepalive_secs := v } ∧
    (b.set_poll_interval_ms v).set_pool_max_idle_per_host w
      = (b.set_pool_max_idle_per_host w).set_poll_interval_ms v ∧
    (b.set_poll_interval_ms v).set_pool_idle_timeout_secs w
      = (b.set_pool_idle_timeout_secs w).set_poll_interval_ms v ∧
    (b.set_poll_interval_ms v).set_request_timeout_ms w
      = (b.set_request_timeout_ms w).set_poll_interval_ms v ∧
    (b.set_poll_interval_ms v).set_tcp_keepalive_secs w
      = (b.set_tcp_keepalive_secs w).set_poll_interval_ms v ∧
    (b.set_pool_max_idle_per_host v).set_pool_idle_timeout_secs w
      = (b.set_pool_idle_timeout_secs w).set_pool_max_idle_per_host v ∧
    (b.set_pool_max_idle_per_host v).set_request_timeout_ms w
      = (b.set_request_timeout_ms w).set_pool_max_idle_per_host v ∧
    (b.set_pool_max_idle_per_host v).set_tcp_keepalive_secs w
      = (b.set_tcp_keepalive_secs w).set_pool_max_idle_per_host v ∧
    (b.set_pool_idle_timeout_secs v).set_request_timeout_ms w
      = (b.set_request_timeout_ms w).set_pool_idle_timeout_secs v ∧
    (b.set_pool_idle_timeout_secs v).set_tcp_keepalive_secs w
      = (b.set_tcp_keepalive_secs w).set_pool_idle_timeout_secs v ∧
    (b.set_request_timeout_ms v).set_tcp_keepalive_secs w
      = (b.set_tcp_keepalive_secs w).set_request_timeout_ms v :=
  ⟨rfl, rfl, rfl, rfl, rfl, rfl, rfl, rfl, rfl, rfl, rfl, rfl, rfl, rfl, rfl⟩

/-- C1: fetch (and hence fetch_once) returns a decoded value exactly when
the transport delivered a response, its status is in the 2xx range, and the
body decodes as T; a transport failure, a non-2xx status, and a decode
failure each yield the corresponding fetch error and never a decoded
value. -/
theorem fetch_ok_iff {T : Type} (p : JsonPoller)
    (send : Client → String → Except TransportError HttpResponse)
    (dec : String → Except DecodeError T) :
    (∀ t : T, p.fetch send dec = .ok t ↔
      ∃ r, send p.client p.url = .ok r ∧ is_success r.status = true ∧
        dec r.body = .ok t) ∧
    (∀ e, send p.client p.url = .error e →
      p.fetch send dec = .error (.transport e)) ∧
    (∀ r, send p.client p.url = .ok r → is_success r.status = false →
      p.fetch send dec = .error (.httpStatus r.status)) ∧
    (∀ r e, send p.client p.url = .ok r → is_success r.status = true →
      dec r.body = .error e → p.fetch send dec = .error (.decode e)) := by
  refine ⟨fun t => ?_, fun e h => ?_, fun r h hs => ?_, fun r e h hs hd => ?_⟩
  · constructor
    · intro h
      cases hsend : send p.client p.url with
      | error e =>
        simp only [JsonPoller.fetch, hsend] at h
        exact absurd h (by simp)
      | ok r =>
        simp only [JsonPoller.fetch, hsend] at h
        cases hs : is_success r.status with
        | false =>
          rw [hs] at h
          exact absurd h (by simp)
        | true =>
          rw [hs] at h
          simp only [Bool.not_true] at h
          cases hd : dec r.body with
          | error e =>
            rw [hd] at h
            exact absurd h (by simp)
          | ok d =>
            rw [hd] at h
            simp at h
            exact ⟨r, rfl, hs, by rw [hd, h]⟩
    · rintro ⟨r, hsend, hs, hd⟩
      simp only [JsonPoller.fetch, hsend]
      rw [hs, hd]
      rfl
  · simp only [JsonPoller.fetch, h]
  · simp only [JsonPoller.fetch, h]
    rw [hs]
    rfl
  · simp only [JsonPoller.fetch, h]
    rw [hs, hd]
    rfl

/-- C1 witness: a concrete successful fetch, obtained through the iff at a
200 response whose body decodes to the value 7. -/
theorem fetch_ok_iff_witness :
    (JsonPollerBuilder.new "u").build.fetch
        (fun _ _ => .ok ⟨200, "x"⟩) (fun _ => .ok (7 : Nat)) = .ok 7 :=
  ((fetch_ok_iff (JsonPollerBuilder.new "u").build
      (fun _ _ => .ok ⟨200, "x"⟩) (fun _ => .ok (7 : Nat))).1 7).mpr
    ⟨⟨200, "x"⟩, rfl, by decide, rfl⟩

/-- C6: whenever the transport delivers a response whose status code is
outside the 2xx range, fetch returns an error carrying that status code. -/
theorem fetch_http_error_status {T : Type} (p : JsonPoller)
    (send : Client → String → Except TransportError HttpResponse)
    (dec : String → Except DecodeError T) (r : HttpResponse)
    (hsend : send p.client p.url = .ok r) (hs : is_success r.status = false) :
    p.fetch send dec = .error (.httpStatus r.status) := by
  simp only [JsonPoller.fetch, hsend]
  rw [hs]
  rfl

/-- C6 witness: a concrete 404 response yields the error carrying 404. -/
theorem fetch_http_error_status_witness :
    (JsonPollerBuilder.new "u").build.fetch
        (fun _ _ => .ok ⟨404, "nf"⟩) (fun _ => .ok (0 : Nat))
      = .error (.httpStatus 404) :=
  fetch_http_error_status (JsonPollerBuilder.new "u").build
    (fun _ _ => .ok ⟨404, "nf"⟩) (fun _ => .ok (0 : Nat)) ⟨404, "nf"⟩
    rfl (by decide)

/-- C7: fetch_once is the fetch operation used by the polling loop: for
every poller, transport outcome and decoder, the results are equal. -/
theorem fetch_once_eq_fetch {T : Type} (p : JsonPoller)
    (send : Client → String → Except TransportError HttpResponse)
    (dec : String → Except DecodeError T) :
    p.fetch_once send dec = p.fetch send dec := rfl

/-- C8: on a non-2xx status the body is discarded: the result of fetch is
the same for any body and any decoder, and equals the error built from the
status code alone. -/
theorem fetch_http_error_discards_body {T1 T2 : Type} (p : JsonPoller)
    (status : Nat) (b1 b2 : String)
    (dec1 : String → Except DecodeError T1)
    (dec2 : String → Except DecodeError T2)
    (hs : is_success status = false) :
    p.fetch (fun _ _ => .ok ⟨status, b1⟩) dec1 = .error (.httpStatus status) ∧
    p.fetch (fun _ _ => .ok ⟨status, b2⟩) dec2 = .error (.httpStatus status) := by
  constructor
  · simp only [JsonPoller.fetch]
    rw [hs]
    rfl
  · simp only [JsonPoller.fetch]
    rw [hs]
    rfl

/-- C8 witness: a concrete 500 response with two different bodies and two
different decoders, one of which would even decode its body successfully,
yields the same status error either way. -/
theorem fetch_http_error_discards_body_witness :
    (JsonPollerBuilder.new "u").build.fetch
        (fun _ _ => .ok ⟨500, "a"⟩) (fun _ => .ok (1 : Nat))
      = .error (.httpStatus 500) ∧
    (JsonPollerBuilder.new "u").build.fetch
        (fun _ _ => .ok ⟨500, "b"⟩)
        (fun _ => .error (⟨"bad"⟩ : DecodeError) (α := Bool))
      = .error (.httpStatus 500) :=
  fetch_http_error_discards_body (JsonPollerBuilder.new "u").build 500 "a" "b"
    (fun _ => .ok (1 : Nat)) (fun _ => .error ⟨"bad"⟩) (by decide)

/-- Helper: getD at the length of the left list picks the appended
element. -/
theorem getD_concat_of_length {A : Type} (l : List A) (x d : A) (k : Nat)
    (hk : l.length = k) : (l ++ [x]).getD k d = x := by
  subst hk
  induction l with
  | nil => rfl
  | cons a l ih =>
    simp only [List.cons_append, List.length_cons, List.getD_cons_succ]
    exact ih

/-- Helper: getD below the length of the left list ignores the appended
element. -/
theorem getD_concat_of_lt {A : Type} (l : List A) (x d : A) (k m : Nat)
    (hm : l.length = m) (hk : k < m) : (l ++ [x]).getD k d = l.getD k d := by
  subst hm
  induction l generalizing k with
  | nil => cases hk
  | cons a l ih =>
    cases k with
    | zero => rfl
    | succ k =>
      simp only [List.cons_append, List.getD_cons_succ]
      exact ih k (by simpa using hk)

/-- Helper: the loop processes every tick, whatever the outcomes: the trace
of n iterations has exactly n events. -/
theorem startEvents_length {T : Type} (p : JsonPoller)
    (send : Nat → Client → String → Except TransportError HttpResponse)
    (dec : String → Except DecodeError T) (elapsed : Nat → Duration)
    (n : Nat) : (p.startEvents send dec elapsed n).length = n := by
  induction n with
  | zero => rfl
  | succ n ih => simp [JsonPoller.startEvents, ih]

/-- C2: in the polling loop, every tick produces exactly one event: a
handler invocation with the decoded value and the elapsed duration when the
fetch succeeds, and a logged error with no handler invocation when the
fetch fails; the trace has one event per tick for every n, so no fetch
failure ever terminates the loop. -/
theorem start_tick_dichotomy {T : Type} (p : JsonPoller)
    (send : Nat → Client → String → Except TransportError HttpResponse)
    (dec : String → Except DecodeError T) (elapsed : Nat → Duration)
    (n : Nat) :
    (p.startEvents send dec elapsed n).length = n ∧
    ∀ k, k < n →
      (∀ d, p.fetch (send k) dec = .ok d →
        (p.startEvents send dec elapsed n).getD k (.logError (.decode ⟨""⟩))
          = .handlerCall d (elapsed k)) ∧
      (∀ e, p.fetch (send k) dec = .error e →
        (p.startEvents send dec elapsed n).getD k (.logError (.decode ⟨""⟩))
          = .logError e) := by
  refine ⟨startEvents_length p send dec elapsed n, ?_⟩
  induction n with
  | zero =>
    intro k hk
    cases hk
  | succ n ih =>
    intro k hk
    rcases Nat.lt_succ_iff_lt_or_eq.mp hk with hlt | heq
    · have hgd : ∀ dflt, (p.startEvents send dec elapsed (n + 1)).getD k dflt
          = (p.startEvents send dec elapsed n).getD k dflt := by
        intro dflt
        simp only [JsonPoller.startEvents]
        exact getD_concat_of_lt _ _ _ k n (startEvents_length p send dec elapsed n) hlt
      exact ⟨fun d hd => by rw [hgd]; exact (ih k hlt).1 d hd,
        fun e he => by rw [hgd]; exact (ih k hlt).2 e he⟩
    · subst heq
      have hgd : ∀ dflt, (p.startEvents send dec elapsed (k + 1)).getD k dflt
          = startStep (p.fetch (send k) dec) (elapsed k) := by
        intro dflt
        simp only [JsonPoller.startEvents]
        exact getD_concat_of_length _ _ _ k (startEvents_length p send dec elapsed k)
      constructor
      · intro d hd
        rw [hgd, hd]
        rfl
      · intro e he
        rw [hgd, he]
        rfl

/-- C2 witness: two ticks against a server that answers 200 on tick 0 and
is unreachable on tick 1: the trace holds one handler call with the decoded
value and elapsed duration, then one logged transport error. -/
theorem start_tick_dichotomy_witness :
    ((JsonPollerBuilder.new "u").build.startEvents
        (fun k _ _ => if k = 0 then .ok ⟨200, "x"⟩ else .error ⟨"down"⟩)
        (fun _ => .ok (7 : Nat)) (fun k => k) 2).getD 0 (.logError (.decode ⟨""⟩))
      = .handlerCall 7 0 ∧
    ((JsonPollerBuilder.new "u").build.startEvents
        (fun k _ _ => if k = 0 then .ok ⟨200, "x"⟩ else .error ⟨"down"⟩)
        (fun _ => .ok (7 : Nat)) (fun k => k) 2).getD 1 (.logError (.decode ⟨""⟩))
      = .logError (.transport ⟨"down"⟩) :=
  ⟨((start_tick_dichotomy (JsonPollerBuilder.new "u").build
        (fun k _ _ => if k = 0 then .ok ⟨200, "x"⟩ else .error ⟨"down"⟩)
        (fun _ => .ok (7 : Nat)) (fun k => k) 2).2 0 (by decide)).1 7 rfl,
   ((start_tick_dichotomy (JsonPollerBuilder.new "u").build
        (fun k _ _ => if k = 0 then .ok ⟨200, "x"⟩ else .error ⟨"down"⟩)
        (fun _ => .ok (7 : Nat)) (fun k => k) 2).2 1 (by decide)).2
      (.transport ⟨"down"⟩) rfl⟩

/-- Helper: a tick completes at the later of the call instant and the
scheduled deadline. -/
theorem IntervalTimer.tick_fst (t : IntervalTimer) (now : Nat) :
    (t.tick now).1 = max now t.deadline := by
  unfold IntervalTimer.tick
  split
  · next h => exact (Nat.max_eq_right h).symm
  · next h => exact (Nat.max_eq_left (le_of_not_le h)).symm

/-- Helper: a tick does not change the period. -/
theorem IntervalTimer.tick_period (t : IntervalTimer) (now : Nat) :
    ((t.tick now).2).period = t.period := by
  unfold IntervalTimer.tick
  split <;> rfl

/-- Helper: with a nonzero period, the deadline scheduled by a tick lies
strictly after the instant at which that tick completed, so a completed
tick is never followed by an immediately pending one. -/
theorem IntervalTimer.tick_deadline_gt (t : IntervalTimer) (now : Nat)
    (hp : 0 < t.period) : (t.tick now).1 < ((t.tick now).2).deadline := by
  unfold IntervalTimer.tick
  split
  · next h =>
    show t.deadline < t.deadline + t.period
    omega
  · next h =>
    show now < now + t.period - ((now - t.deadline) % t.period)
    have hr : (now - t.deadline) % t.period < t.period := Nat.mod_lt _ hp
    omega

/-- Helper: with a nonzero period, Skip keeps the deadline on the grid of
the original schedule: the new deadline is congruent to the old one modulo
the period. -/
theorem IntervalTimer.tick_deadline_mod (t : IntervalTimer) (now : Nat)
    (hp : 0 < t.period) :
    ((t.tick now).2).deadline % t.period = t.deadline % t.period := by
  unfold IntervalTimer.tick
  split
  · next h =>
    show (t.deadline + t.period) % t.period = t.deadline % t.period
    exact Nat.add_mod_right _ _
  · next h =>
    show (now + t.period - ((now - t.deadline) % t.period)) % t.period
        = t.deadline % t.period
    have hlt : t.deadline < now := lt_of_not_le h
    obtain ⟨q, r, hr, hqr⟩ :
        ∃ q r, r < t.period ∧ now - t.deadline = t.period * q + r :=
      ⟨(now - t.deadline) / t.period, (now - t.deadline) % t.period,
        Nat.mod_lt _ hp, (Nat.div_add_mod _ _).symm⟩
    have hmod : (now - t.deadline) % t.period = r := by
      rw [hqr, Nat.mul_add_mod]
      exact Nat.mod_eq_of_lt hr
    rw [hmod]
    have hpq : ∀ pq, pq = t.period * q →
        (now + t.period - r) % t.period = t.deadline % t.period := by
      intro pq hdef
      have hqr2 : now - t.deadline = pq + r := by rw [hdef]; exact hqr
      have hkey : now + t.period - r = t.deadline + (pq + t.period) := by omega
      rw [hkey, hdef]
      have hmul : t.period * q + t.period = t.period * (q + 1) :=
        (Nat.mul_succ _ _).symm
      rw [hmul]
      exact Nat.add_mul_mod_self_left _ _ _
    exact hpq (t.period * q) rfl

/-- Helper: the timer used by the loop keeps the configured period
forever. -/
theorem startTimes_period (period t0 : Nat) (d : Nat → Nat) (n : Nat) :
    ((startTimes period t0 d n).2).period = period := by
  induction n with
  | zero => exact IntervalTimer.tick_period _ _
  | succ n ih =>
    simp only [startTimes]
    rw [IntervalTimer.tick_period]
    exact ih

/-- Helper: every completed tick of the loop is strictly before the next
scheduled deadline. -/
theorem startTimes_fire_lt_deadline (period t0 : Nat) (d : Nat → Nat)
    (hp : 0 < period) (n : Nat) :
    (startTimes period t0 d n).1 < ((startTimes period t0 d n).2).deadline := by
  cases n with
  | zero => exact IntervalTimer.tick_deadline_gt ⟨period, t0⟩ t0 hp
  | succ n =>
    simp only [startTimes]
    exact IntervalTimer.tick_deadline_gt _ _
      (by rw [startTimes_period]; exact hp)

/-- Helper: all deadlines of the loop timer stay on the grid started at the
creation instant. -/
theorem startTimes_deadline_mod (period t0 : Nat) (d : Nat → Nat)
    (hp : 0 < period) (n : Nat) :
    ((startTimes period t0 d n).2).deadline % period = t0 % period := by
  induction n with
  | zero =>
    have h := IntervalTimer.tick_deadline_mod ⟨period, t0⟩ t0 hp
    simpa using h
  | succ n ih =>
    have hper := startTimes_period period t0 d n
    have h := IntervalTimer.tick_deadline_mod (startTimes period t0 d n).2
      ((startTimes period t0 d n).1 + d n) (by rw [hper]; exact hp)
    rw [hper] at h
    simp only [startTimes]
    rw [h]
    exact ih

/-- C5: with a nonzero poll interval, tick n+1 completes exactly at the
later of the end of iteration n (fetch plus handler) and the scheduled
deadline, hence no fetch starts before the previous fetch-and-dispatch has
finished (at most one in flight) and a loop that becomes ready before the
deadline waits for it; the deadline pending after each completed tick is
strictly in its future (missed ticks are never queued or fired in a burst)
and stays on the grid of the original schedule. -/
theorem start_tick_skip (period t0 : Nat) (d : Nat → Nat) (hp : 0 < period)
    (n : Nat) :
    (startTimes period t0 d (n + 1)).1
        = max ((startTimes period t0 d n).1 + d n)
            ((startTimes period t0 d n).2).deadline ∧
    (startTimes period t0 d n).1 + d n ≤ (startTimes period t0 d (n + 1)).1 ∧
    (startTimes period t0 d n).1 < ((startTimes period t0 d n).2).deadline ∧
    ((startTimes period t0 d n).2).deadline % period = t0 % period := by
  refine ⟨?_, ?_, startTimes_fire_lt_deadline period t0 d hp n,
    startTimes_deadline_mod period t0 d hp n⟩
  · simp only [startTimes]
    exact IntervalTimer.tick_fst _ _
  · simp only [startTimes]
    rw [IntervalTimer.tick_fst]
    exact Nat.le_max_left _ _

/-- C5 witness: period 2 starting at instant 0 with a processing duration
of 5 per iteration, evaluated at the first iteration. -/
theorem start_tick_skip_witness :
    (startTimes 2 0 (fun _ => 5) (0 + 1)).1
        = max ((startTimes 2 0 (fun _ => 5) 0).1 + (fun _ => 5) 0)
            ((startTimes 2 0 (fun _ => 5) 0).2).deadline ∧
    (startTimes 2 0 (fun _ => 5) 0).1 + (fun _ => 5) 0
        ≤ (startTimes 2 0 (fun _ => 5) (0 + 1)).1 ∧
    (startTimes 2 0 (fun _ => 5) 0).1
        < ((startTimes 2 0 (fun _ => 5) 0).2).deadline ∧
    ((startTimes 2 0 (fun _ => 5) 0).2).deadline % 2 = 0 % 2 :=
  start_tick_skip 2 0 (fun _ => 5) (by decide) 0

/-- C9 counterexample: a poller built with the poll interval overridden to
zero panics at the timer construction of start, against the claim that
start does not fail or panic for any configured interval value. -/
theorem start_zero_interval_panics :
    ((JsonPollerBuilder.new "http://x").set_poll_interval_ms 0).build.start_timer 0
      = .error Panic.intervalPeriodZero := rfl

/-- C9 amended: the builder override performs no bounds checking (it stores
any value verbatim), and for every nonzero configured interval the timer
construction of start succeeds; only a zero interval makes the tokio
interval construction panic. -/
theorem builder_no_bounds_check_start_nonzero (url : String) (ms now : Nat) :
    ((JsonPollerBuilder.new url).set_poll_interval_ms ms).poll_interval_ms = ms ∧
    (ms ≠ 0 →
      ((JsonPollerBuilder.new url).set_poll_interval_ms ms).build.start_timer now
        = .ok ⟨Duration.from_millis ms, now⟩) := by
  refine ⟨rfl, fun h => ?_⟩
  show tokioInterval (Duration.from_millis ms) now
      = .ok ⟨Duration.from_millis ms, now⟩
  unfold tokioInterval
  have hnz : ¬(Duration.from_millis ms = 0) := by
    intro hc
    have hc2 : ms * 1000000 = 0 := hc
    omega
  rw [if_neg hnz]

/-- C9 amended witness: interval 3 ms is stored verbatim and the timer
construction succeeds. -/
theorem builder_no_bounds_check_start_nonzero_witness :
    ((JsonPollerBuilder.new "u").set_poll_interval_ms 3).poll_interval_ms = 3 ∧
    ((JsonPollerBuilder.new "u").set_poll_interval_ms 3).build.start_timer 0
      = .ok ⟨Duration.from_millis 3, 0⟩ :=
  ⟨(builder_no_bounds_check_start_nonzero "u" 3 0).1,
   (builder_no_bounds_check_start_nonzero "u" 3 0).2 (by decide)⟩
